import Mathlib

/-!
# Silva ECS — verification of the registry, zipper and state-manager core

Shallow embedding of the Silva entity-component-system library
(`Silva.hpp` / `sparse_array` / `SilvaState.hpp`).

Conventions of the embedding:

* `std::size_t` values are modelled as `Nat`; where wrap-around of `size_t`
  subtraction matters (`Registry::entities_count`) the computation is done
  explicitly modulo `2 ^ 64`.
* An `hl::silva::Entity` is just its `std::size_t` id, so entities are `Nat`.
* `std::optional<T>` slots are `Option α`; a `std::vector` is a `List`.
* `std::unordered_set<std::size_t>` is modelled as a duplicate-free `List Nat`
  holding the elements in the set's iteration order, head first
  (`*s.begin()` = `List.head`).  Inserting a new element places it at the
  head of the list: this mirrors the reference implementation
  (libstdc++ prepends a node whose bucket is empty to the global node
  list), and no claim below depends on more than "iteration order is some
  fixed order that is not guaranteed to be sorted".
* Component types are type-erased in the source (`std::vector<std::any>`
  indexed by the per-type `component_index_t`).  The embedding keeps one
  value type `α` for all component stores and identifies a component type
  with its integer index; the per-type removal closures registered by
  `register_component` (each one `get_components<T>().erase(id)` for its own
  store) collectively erase the id from every store, which is how the purge
  loop is rendered below.
* Systems are `std::function<void(Registry&)>`; a Lean structure cannot
  store functions over itself, so the system list is passed to
  `Registry.update` as an explicit parameter (`List (Registry α → Registry α)`,
  run left to right exactly like the source's loop over `_systems`).
* Fallible lookups return `Option`: `none` models the thrown
  NotFound/`SilvaError` of the debug build.
-/

set_option maxRecDepth 8000

namespace Silva

/-- `hl::silva::sparse_array<T>` (`src/unnamed/part_004`, `=== sparse_array ===`
section): a growable vector of `std::optional<T>` slots.  `data` is the
`_data` vector. -/
structure sparse_array (α : Type) where
  data : List (Option α)
deriving DecidableEq

namespace sparse_array

/-- The default constructor `sparse_array(default_size=20)`:
`_data.assign(default_size, std::nullopt)`. -/
def default (α : Type) : sparse_array α :=
  ⟨List.replicate 20 none⟩

/-- `operator[]` read at an index.  For `idx < _data.size()` this is exactly
the C++ `_data[idx]`; for larger indices `std::vector::operator[]` is
undefined behaviour, which no verified claim exercises (`List.getD` then
returns `none`). -/
def opIdx (a : sparse_array α) (idx : Nat) : Option α :=
  a.data.getD idx none

/-- `ensure_space(pos)`: `for (; _data.size() <= pos; _data.push_back(std::nullopt));` -/
def ensure_space (a : sparse_array α) (pos : Nat) : sparse_array α :=
  ⟨a.data ++ List.replicate (pos + 1 - a.data.length) none⟩

/-- `insert(pos, comp)`: `ensure_space(pos); _data[pos] = comp;` -/
def insert (a : sparse_array α) (pos : Nat) (comp : α) : sparse_array α :=
  ⟨(a.ensure_space pos).data.set pos (some comp)⟩

/-- `erase(pos)`: `if (pos >= _data.size()) return; _data[pos] = std::nullopt;` -/
def erase (a : sparse_array α) (pos : Nat) : sparse_array α :=
  if a.data.length ≤ pos then a else ⟨a.data.set pos none⟩

/-- `non_null(pos)`: `if (pos >= _data.size()) return false; return _data[pos] != std::nullopt;` -/
def non_null (a : sparse_array α) (pos : Nat) : Bool :=
  if a.data.length ≤ pos then false else (a.data.getD pos none).isSome

/-- `size()`. -/
def size (a : sparse_array α) : Nat :=
  a.data.length

end sparse_array

/-- `std::unordered_set<size_t>::insert`: no effect when the element is
present; a new element becomes the first element of the iteration order. -/
def hset_insert (s : List Nat) (x : Nat) : List Nat :=
  if x ∈ s then s else x :: s

/-- `std::unordered_set<size_t>::erase(x)`. -/
def hset_erase (s : List Nat) (x : Nat) : List Nat :=
  s.filter (fun y => y ≠ x)

/-- `hl::silva::Registry` (`src/unnamed/part_001` / `part_002`; the two
revisions agree on every member used by the claims).  Fields mirror the
source's private members; `_last_entity_id` is `Entity::Id _last_entity_id = -1`,
i.e. `(size_t)-1 = 2^64 - 1`, and — in the `part_001` revision that defines
`is_entity_valid` — no member function ever assigns to it. -/
structure Registry (α : Type) where
  _components : List (sparse_array α)
  _entities_count : Nat
  _to_kill_entities : List Nat
  _killed_entities : List Nat
  _last_entity_id : Nat
deriving DecidableEq

namespace Registry

/-- A default-constructed registry. -/
def empty (α : Type) : Registry α :=
  ⟨[], 0, [], [], 2 ^ 64 - 1⟩

/-- `register_component<T>()`: assigns the next `component_index_t`
(the position in `_components`), pushes a default `sparse_array` and records
the removal closure `[this](id){ this->remove_component<T>(id); }` for that
store (the closures are applied collectively by the purge loop below). -/
def register_component (r : Registry α) : Registry α :=
  { r with _components := r._components ++ [sparse_array.default α] }

/-- `spawn_entity()`:
```
if (_killed_entities.empty()) return Entity(_entities_count++);
const Entity::Id random_id = *_killed_entities.begin();
_killed_entities.erase(random_id);
return Entity(random_id);
```
Returns the id together with the updated registry. -/
def spawn_entity (r : Registry α) : Nat × Registry α :=
  match r._killed_entities with
  | [] => (r._entities_count, { r with _entities_count := r._entities_count + 1 })
  | random_id :: _ =>
      (random_id, { r with _killed_entities := hset_erase r._killed_entities random_id })

/-- `kill_entity(id)`: `_to_kill_entities.insert(id);` -/
def kill_entity (r : Registry α) (id : Nat) : Registry α :=
  { r with _to_kill_entities := hset_insert r._to_kill_entities id }

/-- `insert_component<T>(to, c)` / `emplace_component<T>(to, ...)`: writes the
component into the store of type index `t` (`get_components<T>().insert(to, c)`).
An unregistered `t` throws in the source and is not exercised by any claim. -/
def insert_component (r : Registry α) (t : Nat) (toE : Nat) (c : α) : Registry α :=
  { r with _components :=
      r._components.set t ((r._components.getD t (sparse_array.default α)).insert toE c) }

/-- `remove_component<T>(from)`: `get_components<T>().erase(from);` -/
def remove_component (r : Registry α) (t : Nat) (frm : Nat) : Registry α :=
  { r with _components :=
      r._components.set t ((r._components.getD t (sparse_array.default α)).erase frm) }

/-- `get_component<T>(id)` (named `get` in the `part_002` revision):
`auto& ref = get_components<T>()[id]; if (!ref.has_value()) throw ...; return ref.value();`
`some v` models the returned reference, `none` the thrown NotFound error. -/
def get_component (r : Registry α) (t : Nat) (id : Nat) : Option α :=
  (r._components.getD t (sparse_array.default α)).opIdx id

/-- The body of the purge loop of `update()` for one pending id `e`:
`for (const auto &f : _remove_system_methods) f(e); _killed_entities.insert(e);`
Each registered removal closure erases `e` from its own store, so together
they erase `e` from every store. -/
def purge_step (r : Registry α) (e : Nat) : Registry α :=
  { r with
      _components := r._components.map (fun s => s.erase e),
      _killed_entities := hset_insert r._killed_entities e }

/-- Phase 1 of `update()`:
```
if (_to_kill_entities.empty() == false) {
    for (const auto &e : _to_kill_entities) { for (f : _remove_system_methods) f(e); _killed_entities.insert(e); }
    _to_kill_entities.clear();
}
```
(For an empty pending set the loop and the clear are no-ops, so the guard
needs no separate case.) -/
def purge_kills (r : Registry α) : Registry α :=
  { r._to_kill_entities.foldl purge_step r with _to_kill_entities := [] }

/-- `update()`: purge last frame's kills, then run every system in order on
the registry (`for (system : _systems) system(*this);`).  The system list is
the registry's `_systems`, passed explicitly (see the header comment). -/
def update (systems : List (Registry α → Registry α)) (r : Registry α) : Registry α :=
  systems.foldl (fun s f => f s) (purge_kills r)

/-- `entities_count()`: `_entities_count - (_killed_entities.size() + _to_kill_entities.size())`
computed in `size_t` arithmetic, i.e. modulo `2^64`. -/
def entities_count (r : Registry α) : Nat :=
  (r._entities_count + 2 ^ 64 -
    (r._killed_entities.length + r._to_kill_entities.length)) % 2 ^ 64

/-- `is_entity_valid(from)` (`part_001` only):
```
if (_last_entity_id >= from)
    return _killed_entities.find(from) == _killed_entities.end();
return false;
```
-/
def is_entity_valid (r : Registry α) (frm : Nat) : Bool :=
  if frm ≤ r._last_entity_id then decide (frm ∉ r._killed_entities) else false

end Registry

/-! ## The zipper (`Zipper` / `View`, `part_002` lines 429-636)

A `Zipper<T1..Tn>` holds references to the n queried stores and two
iterators over entity indices; iteration yields exactly the indices at
which all n stores are occupied.  `qs` below is the list of queried
stores (in `T1..Tn` order) and `endI` the `entities_count()` captured at
construction.  `all_set` is the fold `(std::get<...>.non_null(_idx) && ...)`,
whose `&&` checks `T1, T2, ...` and stops at the first `false`. -/

/-- `all_set()`: every queried store is occupied at index `i`. -/
def all_set (qs : List (sparse_array α)) (i : Nat) : Bool :=
  qs.all (fun s => s.non_null i)

/-- The scan loop shared by `incr_all` and the constructor:
starting at `i`, advance while `!all_set() && _idx != _end`.
(Iterator indices never exceed `_end` in the source; the `endI ≤ i` guard
renders the `_idx != _end` test and doubles as the termination measure.) -/
def scan_set (qs : List (sparse_array α)) (endI : Nat) (i : Nat) : Nat :=
  if endI ≤ i then i
  else if all_set qs i then i
  else scan_set qs endI (i + 1)
termination_by endI - i

/-- `incr_all()`: `for (++_idx; !all_set() && _idx != _end; ++_idx);` -/
def incr_all (qs : List (sparse_array α)) (endI : Nat) (i : Nat) : Nat :=
  scan_set qs endI (i + 1)

/-- The iterator constructor at index `index`:
`if (!all_set() && index != end) incr_all();`
`begin` is constructed with `index = 0`. -/
def begin_idx (qs : List (sparse_array α)) (endI : Nat) : Nat :=
  if ¬ all_set qs 0 ∧ 0 ≠ endI then incr_all qs endI 0 else 0

/-- The indices visited by a `begin()`/`end()` loop starting from iterator
position `i`: yield `_idx` while `it != end` (i.e. `_idx != _end`), stepping
with `incr_all`. -/
def zip_ids_from (qs : List (sparse_array α)) (endI : Nat) (i : Nat) : List Nat :=
  if endI ≤ i then [] else i :: zip_ids_from qs endI (incr_all qs endI i)
termination_by endI - i
decreasing_by
  have hge : ∀ j, j ≤ scan_set qs endI j := by
    intro j
    induction j using scan_set.induct qs endI with
    | case1 j h => rw [scan_set]; simp [h]
    | case2 j h hp => rw [scan_set]; simp [h, hp]
    | case3 j h hp ih => rw [scan_set]; simp [h, hp]; omega
  have := hge (i + 1)
  simp only [incr_all]
  omega

/-- All indices yielded by iterating a zipper from `begin()` to `end()`. -/
def zip_ids (qs : List (sparse_array α)) (endI : Nat) : List Nat :=
  zip_ids_from qs endI (begin_idx qs endI)

/-- `Registry::view<T1..Tn>()` / `zip<T1..Tn>()`, reduced to the entity ids it
yields: the zipper is built from `get_components<Ti>()...` and
`entities_count()` for both `begin` and `end`
(`Zipper(r) : _values(r.get_components<Containers>()...), _end(_values, r.entities_count(), r.entities_count()), _begin(_values, 0, r.entities_count())`). -/
def Registry.view (r : Registry α) (ts : List Nat) : List Nat :=
  zip_ids (ts.map (fun t => r._components.getD t (sparse_array.default α))) r.entities_count

/-! ## The state manager (`SilvaState.hpp`, `src/unnamed/part_003`)

`StateManager` owns a stack of `std::unique_ptr<AState>` (head of the list
below = `m_states.top()`), one pending state slot and a pop counter.  A
state is a polymorphic object whose virtual `update()` body may call back
into the manager; the bodies the claims exercise are defunctionalized into
`Action` (doing nothing, or `replace<Other>()` — i.e. `stop(true)` followed
by `push<Other>()`).  Since the claims are about *when* the lifecycle
hooks run, `update` also returns the sequence of observable events of that
call: each `init()` call, each `update()` call, and each state destruction
(a `unique_ptr` released by `m_states.pop()`, by `m_pending_state.reset()`
in `stop(true)`, or by overwriting `m_pending_state` in `push`). -/

/-- What a state's virtual `update()` body does to its manager. -/
inductive Action where
  | nop : Action
  | replaceWith (tag : Nat) (next : Action) : Action
deriving DecidableEq

/-- A live state object: an identifying tag plus its `update()` behaviour. -/
structure StObj where
  tag : Nat
  act : Action
deriving DecidableEq

/-- Observable lifecycle events. -/
inductive Ev where
  | init (tag : Nat) : Ev
  | updated (tag : Nat) : Ev
  | destroyed (tag : Nat) : Ev
deriving DecidableEq

/-- `StateManager`'s data members (`part_003` lines 107-109). -/
structure StateManager where
  m_states : List StObj
  m_pending_state : Option StObj
  m_pop_count : Nat
deriving DecidableEq

namespace StateManager

/-- A default-constructed manager. -/
def initial : StateManager :=
  ⟨[], none, 0⟩

/-- `push<T>(args...)`: the new state is constructed immediately and stored
in `m_pending_state = std::move(state)`; overwriting a previous pending
state destroys it. -/
def push (m : StateManager) (o : StObj) : List Ev × StateManager :=
  ((match m.m_pending_state with
    | some p => [Ev.destroyed p.tag]
    | none => []),
   { m with m_pending_state := some o })

/-- `pop()`: `m_pop_count = std::min(m_pop_count + 1, m_states.size());` -/
def pop (m : StateManager) : StateManager :=
  { m with m_pop_count := min (m.m_pop_count + 1) m.m_states.length }

/-- `stop(remove_pending)`:
`if (remove_pending) m_pending_state.reset(); m_pop_count = m_states.size();` -/
def stop (m : StateManager) (remove_pending : Bool) : List Ev × StateManager :=
  let (ev, m1) :=
    if remove_pending then
      (match m.m_pending_state with
       | some p => ([Ev.destroyed p.tag], { m with m_pending_state := none })
       | none => ([], m))
    else ([], m)
  (ev, { m1 with m_pop_count := m1.m_states.length })

/-- `replace<T>(args...)`: `stop(true); push<T>(args...);` -/
def replace (m : StateManager) (o : StObj) : List Ev × StateManager :=
  let (ev1, m1) := m.stop true
  let (ev2, m2) := m1.push o
  (ev1 ++ ev2, m2)

/-- Interpretation of a state's `update()` body. -/
def applyAction : Action → StateManager → List Ev × StateManager
  | Action.nop, m => ([], m)
  | Action.replaceWith t a, m => m.replace ⟨t, a⟩

/-- `_pop_states_internal()`:
`for (std::size_t i = 0; i < m_pop_count; i++) m_states.pop();`
Note that the source does **not** reset `m_pop_count`.  Each `m_states.pop()`
destroys the popped state (popping an empty stack is undefined behaviour in
the source and is not exercised by any claim). -/
def pop_states_internal (m : StateManager) : List Ev × StateManager :=
  ((m.m_states.take m.m_pop_count).map (fun s => Ev.destroyed s.tag),
   { m with m_states := m.m_states.drop m.m_pop_count })

/-- `update()` = `_basic_update_coroutine<&AState::update>()`:
```
_pop_states_internal();
if (m_pending_state) { m_pending_state->init(); m_states.push(std::move(m_pending_state)); }
if (m_states.empty()) return false;
m_states.top()->update();
return true;
```
Returns (events of this call, return value, manager afterwards). -/
def update (m : StateManager) : List Ev × Bool × StateManager :=
  let (evPop, m1) := m.pop_states_internal
  let (evInit, m2) :=
    match m1.m_pending_state with
    | some p => ([Ev.init p.tag], { m1 with m_states := p :: m1.m_states, m_pending_state := none })
    | none => ([], m1)
  match m2.m_states with
  | [] => (evPop ++ evInit, false, m2)
  | top :: _ =>
      let (evAct, m3) := applyAction top.act m2
      (evPop ++ evInit ++ [Ev.updated top.tag] ++ evAct, true, m3)

end StateManager

/-! ## Concrete scenarios used by the claims -/

/-- C3's scenario registry: two registered component types `A` (index 0) and
`B` (index 1); entities 0, 1, 2 carrying `{A}`, `{A,B}`, `{B}` respectively. -/
def c3_reg : Registry Nat :=
  let r0 := ((Registry.empty Nat).register_component).register_component
  let (e0, r1) := r0.spawn_entity
  let (e1, r2) := r1.spawn_entity
  let (e2, r3) := r2.spawn_entity
  ((((r3.insert_component 0 e0 10).insert_component 0 e1 11).insert_component
      1 e1 21).insert_component 1 e2 22)

/-- C5's counterexample registry: spawn ids 0 and 1, kill 1 then 0, then
`update()` — after which the dead pool's iteration order lists 1 first. -/
def c5_reg : Registry Nat :=
  let r0 := Registry.empty Nat
  let (e0, r1) := r0.spawn_entity
  let (e1, r2) := r1.spawn_entity
  ((r2.kill_entity e1).kill_entity e0).update []

/-- C5's spec scenario: spawn A (id 0); kill A; spawn B (id 1); `update()`. -/
def c5_spec_reg : Registry Nat :=
  let r0 := Registry.empty Nat
  let (a, r1) := r0.spawn_entity
  let r2 := r1.kill_entity a
  let (_, r3) := r2.spawn_entity
  r3.update []

/-- C6's scenario registry: types `A` (0) and `B` (1); 100 entities each
holding both. -/
def c6_reg : Registry Nat :=
  let r0 := ((Registry.empty Nat).register_component).register_component
  (List.range 100).foldl
    (fun r _ =>
      let (e, r1) := r.spawn_entity
      (r1.insert_component 0 e 1).insert_component 1 e 2)
    r0

/-- C6's system: kill every entity matched by `view<A,B>()`
(`for (auto [e, _, __] : r.view<dummy0, dummy1>()) e.kill();`). -/
def c6_kill_system (r : Registry Nat) : Registry Nat :=
  (r.view [0, 1]).foldl (fun acc e => acc.kill_entity e) r

/-- C8's manager: two states (tags 0 and 1) pushed and initialized via the
public API, so the live stack is `[⟨1,nop⟩, ⟨0,nop⟩]` with `m_pop_count = 0`. -/
def c8_mgr : StateManager :=
  let m0 := StateManager.initial
  let m1 := (m0.push ⟨0, Action.nop⟩).2
  let m2 := m1.update.2.2
  let m3 := (m2.push ⟨1, Action.nop⟩).2
  m3.update.2.2

/-! ## Helper lemmas -/

theorem list_set_of_get? : ∀ (l : List β) (n : Nat) (v : β), l.get? n = some v → l.set n v = l
  | [], _, _, h => by simp at h
  | _ :: _, 0, _, h => by simp at h; simp [h]
  | x :: xs, n + 1, v, h => by
      simp only [List.get?_cons_succ] at h
      simp [List.set, list_set_of_get? xs n v h]

theorem replicate_getD_none (n i : Nat) :
    (List.replicate n (none : Option β)).getD i none = none := by
  induction n generalizing i with
  | zero => simp
  | succ n ih =>
      cases i with
      | zero => simp [List.replicate_succ]
      | succ i => simp only [List.replicate_succ, List.getD_cons_succ]; exact ih i

namespace sparse_array

theorem default_opIdx (α : Type) (i : Nat) : (default α).opIdx i = none :=
  replicate_getD_none 20 i

theorem length_erase (a : sparse_array α) (x : Nat) :
    (a.erase x).data.length = a.data.length := by
  unfold erase; split <;> simp

theorem opIdx_erase_self (a : sparse_array α) (x : Nat) : (a.erase x).opIdx x = none := by
  unfold erase opIdx
  split
  next h => exact List.getD_eq_default a.data none h
  next h =>
    rw [List.getD_eq_getElem?_getD, List.getElem?_set_self (by omega)]
    rfl

theorem opIdx_erase_of_none {a : sparse_array α} {e : Nat} (x : Nat)
    (h : a.opIdx e = none) : (a.erase x).opIdx e = none := by
  by_cases hex : e = x
  · subst hex; exact opIdx_erase_self a e
  · unfold erase opIdx at *
    split
    · exact h
    · rwa [List.getD_eq_getElem?_getD, List.getElem?_set_ne (fun hc => hex hc.symm),
        ← List.getD_eq_getElem?_getD]

theorem non_null_eq (a : sparse_array α) (pos : Nat) :
    a.non_null pos = (a.opIdx pos).isSome := by
  unfold non_null opIdx
  split
  next h => rw [List.getD_eq_default a.data none h]; rfl
  next h => rfl

theorem length_insert (a : sparse_array α) (pos : Nat) (c : α) :
    (a.insert pos c).data.length = max (pos + 1) a.data.length := by
  simp [insert, ensure_space]
  omega

theorem opIdx_insert_self (a : sparse_array α) (pos : Nat) (c : α) :
    (a.insert pos c).opIdx pos = some c := by
  unfold insert ensure_space opIdx
  rw [List.getD_eq_getElem?_getD, List.getElem?_set_self (by simp; omega)]
  rfl

end sparse_array

theorem hset_insert_mem_self (s : List Nat) (x : Nat) : x ∈ hset_insert s x := by
  unfold hset_insert; split
  next h => exact h
  next h => exact List.mem_cons_self x s

theorem hset_insert_mem_of {s : List Nat} {y : Nat} (x : Nat) (h : y ∈ s) :
    y ∈ hset_insert s x := by
  unfold hset_insert; split
  · exact h
  · exact List.mem_cons_of_mem x h

theorem hset_erase_not_mem (s : List Nat) (x : Nat) : x ∉ hset_erase s x := by
  unfold hset_erase
  intro h
  simpa using (List.mem_filter.mp h).2

/-! ### Zipper scan lemmas -/

theorem scan_set_ge (qs : List (sparse_array α)) (endI i : Nat) :
    i ≤ scan_set qs endI i := by
  induction i using scan_set.induct qs endI with
  | case1 i h => rw [scan_set]; simp [h]
  | case2 i h hp => rw [scan_set]; simp [h, hp]
  | case3 i h hp ih => rw [scan_set]; simp [h, hp]; omega

theorem scan_set_le (qs : List (sparse_array α)) (endI : Nat) :
    ∀ i : Nat, i ≤ endI → scan_set qs endI i ≤ endI := by
  intro i
  induction i using scan_set.induct qs endI with
  | case1 i h => intro hi; rw [scan_set]; simp [h]; omega
  | case2 i h hp => intro hi; rw [scan_set]; simp [h, hp]; omega
  | case3 i h hp ih => intro hi; rw [scan_set]; simp [h, hp]; exact ih (by omega)

theorem scan_set_all_set (qs : List (sparse_array α)) (endI : Nat) :
    ∀ i : Nat, scan_set qs endI i < endI → all_set qs (scan_set qs endI i) = true := by
  intro i
  induction i using scan_set.induct qs endI with
  | case1 i h =>
      intro hlt; rw [scan_set] at hlt ⊢; simp [h] at hlt ⊢; omega
  | case2 i h hp => intro hlt; rw [scan_set]; simp [h, hp]
  | case3 i h hp ih =>
      intro hlt; rw [scan_set] at hlt ⊢; simp [h, hp] at hlt ⊢; exact ih hlt

theorem scan_set_not_set (qs : List (sparse_array α)) (endI : Nat) :
    ∀ i j : Nat, i ≤ j → j < scan_set qs endI i → all_set qs j = false := by
  intro i
  induction i using scan_set.induct qs endI with
  | case1 i h =>
      intro j hij hjs; rw [scan_set] at hjs; simp [h] at hjs; omega
  | case2 i h hp =>
      intro j hij hjs; rw [scan_set] at hjs; simp [h, hp] at hjs; omega
  | case3 i h hp ih =>
      intro j hij hjs
      rw [scan_set] at hjs; simp [h, hp] at hjs
      rcases Nat.eq_or_lt_of_le hij with heq | hlt
      · subst heq; simpa using hp
      · exact ih j hlt hjs

theorem begin_idx_eq_scan (qs : List (sparse_array α)) (endI : Nat) :
    begin_idx qs endI = scan_set qs endI 0 := by
  unfold begin_idx incr_all
  by_cases h0 : all_set qs 0
  · simp [h0]
    rw [scan_set]
    by_cases hend : endI ≤ 0 <;> simp [hend, h0]
  · by_cases hend : (0 : Nat) = endI
    · simp [h0, hend]
      rw [scan_set]
      simp [← hend]
    · simp [h0, hend]
      conv_rhs => rw [scan_set]
      have : ¬ endI ≤ 0 := by omega
      simp [this, h0]

/-- Iterating from the first matching index at or after `i` visits exactly
the matching indices of `[i, endI)`, in order. -/
theorem zip_ids_from_scan (qs : List (sparse_array α)) (endI : Nat) :
    ∀ (k i : Nat), endI - i ≤ k → i ≤ endI →
      zip_ids_from qs endI (scan_set qs endI i) =
        (List.range' i (endI - i)).filter (fun j => all_set qs j) := by
  intro k
  induction k with
  | zero =>
      intro i hk hi
      have hs : scan_set qs endI i = i := by
        rw [scan_set]; simp [show endI ≤ i by omega]
      rw [hs, zip_ids_from]
      simp [show endI ≤ i by omega, show endI - i = 0 by omega]
  | succ k ih =>
      intro i hk hi
      have hge := scan_set_ge qs endI i
      have hle := scan_set_le qs endI i hi
      rcases Nat.eq_or_lt_of_le hle with hs_end | hs_lt
      · -- no matching index at or after i: the loop stops at end and the
        -- filter over [i, endI) is empty
        rw [hs_end, zip_ids_from]
        simp only [Nat.le_refl, if_true]
        symm
        rw [List.filter_eq_nil_iff]
        intro j hj
        rw [List.mem_range'_1] at hj
        have := scan_set_not_set qs endI i j hj.1 (by omega)
        simp [this]
      · -- the scan rests on a matching index s < endI: it is yielded and the
        -- iteration continues from the next matching index after s
        set s := scan_set qs endI i with hs_def
        have hset : all_set qs s = true := scan_set_all_set qs endI i hs_lt
        rw [zip_ids_from]
        have : ¬ endI ≤ s := by omega
        simp only [this, if_false]
        have hrec := ih (s + 1) (by omega) (by omega)
        unfold incr_all
        rw [hrec]
        -- split the filtered range at s
        have hsplit : List.range' i (endI - i) =
            List.range' i (s - i) ++ s :: List.range' (s + 1) (endI - (s + 1)) := by
          have h1 := List.range'_append i (s - i) (endI - s) 1
          simp only [one_mul] at h1
          have h2 : i + (s - i) = s := by omega
          have h3 : (endI - s) + (s - i) = endI - i := by omega
          have h4 : endI - s = (endI - (s + 1)) + 1 := by omega
          rw [h2, h3] at h1
          rw [← h1, h4, List.range'_succ]
        rw [hsplit]
        rw [List.filter_append]
        have hnil : (List.range' i (s - i)).filter (fun j => all_set qs j) = [] := by
          rw [List.filter_eq_nil_iff]
          intro j hj
          rw [List.mem_range'_1] at hj
          have := scan_set_not_set qs endI i j hj.1 (by omega)
          simp [this]
        rw [hnil]
        simp [hset]

/-- The zipper's begin/end iteration yields exactly the ascending list of
indices below `endI` at which all queried stores are occupied. -/
theorem zip_ids_eq_filter (qs : List (sparse_array α)) (endI : Nat) :
    zip_ids qs endI = (List.range endI).filter (fun j => all_set qs j) := by
  unfold zip_ids
  rw [begin_idx_eq_scan]
  have := zip_ids_from_scan qs endI endI 0 (by omega) (by omega)
  rw [this]
  rw [List.range_eq_range']
  simp

/-! ### Purge lemmas -/

namespace Registry

theorem purge_step_toKill (r : Registry α) (e : Nat) :
    (r.purge_step e)._to_kill_entities = r._to_kill_entities := rfl

theorem foldl_purge_toKill (l : List Nat) (r : Registry α) :
    (l.foldl purge_step r)._to_kill_entities = r._to_kill_entities := by
  induction l generalizing r with
  | nil => rfl
  | cons x xs ih => simpa [List.foldl_cons] using ih (r.purge_step x)

theorem purge_step_opIdx_self (r : Registry α) (e : Nat) :
    ∀ s ∈ (r.purge_step e)._components, s.opIdx e = none := by
  intro s hs
  simp only [purge_step, List.mem_map] at hs
  obtain ⟨t, _, rfl⟩ := hs
  exact sparse_array.opIdx_erase_self t e

theorem purge_step_opIdx_pres {r : Registry α} {e : Nat} (x : Nat)
    (h : ∀ s ∈ r._components, s.opIdx e = none) :
    ∀ s ∈ (r.purge_step x)._components, s.opIdx e = none := by
  intro s hs
  simp only [purge_step, List.mem_map] at hs
  obtain ⟨t, ht, rfl⟩ := hs
  exact sparse_array.opIdx_erase_of_none x (h t ht)

theorem foldl_purge_opIdx_pres {e : Nat} :
    ∀ (l : List Nat) (r : Registry α),
      (∀ s ∈ r._components, s.opIdx e = none) →
      ∀ s ∈ (l.foldl purge_step r)._components, s.opIdx e = none := by
  intro l
  induction l with
  | nil => intro r h; exact h
  | cons x xs ih =>
      intro r h
      exact ih (r.purge_step x) (purge_step_opIdx_pres x h)

theorem foldl_purge_opIdx {e : Nat} :
    ∀ (l : List Nat) (r : Registry α), e ∈ l →
      ∀ s ∈ (l.foldl purge_step r)._components, s.opIdx e = none := by
  intro l
  induction l with
  | nil => intro r h; simp at h
  | cons x xs ih =>
      intro r h
      rcases List.mem_cons.mp h with rfl | hmem
      · exact foldl_purge_opIdx_pres xs (r.purge_step e) (purge_step_opIdx_self r e)
      · exact ih (r.purge_step x) hmem

theorem purge_step_killed_pres {r : Registry α} {e : Nat} (x : Nat)
    (h : e ∈ r._killed_entities) : e ∈ (r.purge_step x)._killed_entities :=
  hset_insert_mem_of x h

theorem foldl_purge_killed_pres {e : Nat} :
    ∀ (l : List Nat) (r : Registry α), e ∈ r._killed_entities →
      e ∈ (l.foldl purge_step r)._killed_entities := by
  intro l
  induction l with
  | nil => intro r h; exact h
  | cons x xs ih =>
      intro r h
      exact ih (r.purge_step x) (purge_step_killed_pres x h)

theorem foldl_purge_killed {e : Nat} :
    ∀ (l : List Nat) (r : Registry α), e ∈ l →
      e ∈ (l.foldl purge_step r)._killed_entities := by
  intro l
  induction l with
  | nil => intro r h; simp at h
  | cons x xs ih =>
      intro r h
      rcases List.mem_cons.mp h with rfl | hmem
      · exact foldl_purge_killed_pres xs (r.purge_step e) (hset_insert_mem_self _ e)
      · exact ih (r.purge_step x) hmem

theorem purge_kills_opIdx {r : Registry α} {e : Nat} (h : e ∈ r._to_kill_entities) :
    ∀ s ∈ r.purge_kills._components, s.opIdx e = none := by
  intro s hs
  exact foldl_purge_opIdx r._to_kill_entities r h s hs

theorem purge_kills_killed {r : Registry α} {e : Nat} (h : e ∈ r._to_kill_entities) :
    e ∈ r.purge_kills._killed_entities :=
  foldl_purge_killed r._to_kill_entities r h

theorem purge_kills_toKill (r : Registry α) : r.purge_kills._to_kill_entities = [] := rfl

/-- Lift "every store's slot `e` is empty" through the `getD` used by
`get_component`: the default store is all-empty as well. -/
theorem getD_comps_opIdx {comps : List (sparse_array α)} {e : Nat}
    (h : ∀ s ∈ comps, s.opIdx e = none) (t : Nat) :
    (comps.getD t (sparse_array.default α)).opIdx e = none := by
  by_cases ht : t < comps.length
  · rw [List.getD_eq_getElem _ _ ht]
    exact h _ (List.getElem_mem ht)
  · rw [List.getD_eq_default _ _ (by omega)]
    exact sparse_array.default_opIdx α e

end Registry

/-! ## The claims -/

/-- C1: `Registry::update()` is two-phase.  (a) `update` runs the system
callbacks, in order, on exactly the state produced by the purge phase;
(b) the purge phase clears the pending-kill set; (c) every pending id has
every removal closure applied to it (its slot in every store is empty
afterwards) and is moved into the dead pool, all before any system sees the
registry; (d) a `kill_entity` performed by a system during the pass leaves
every component store exactly as the purge phase left it (nothing is purged
in the same `update` call), merely marks the id pending, and the id's
components are removed from every store by the following `update` call. -/
theorem claim_C1_update_two_phase (α : Type) :
    (∀ (systems : List (Registry α → Registry α)) (r : Registry α),
        Registry.update systems r = systems.foldl (fun s f => f s) r.purge_kills) ∧
    (∀ r : Registry α, r.purge_kills._to_kill_entities = []) ∧
    (∀ (r : Registry α) (e : Nat), e ∈ r._to_kill_entities →
        e ∈ r.purge_kills._killed_entities ∧
        ∀ s ∈ r.purge_kills._components, s.non_null e = false) ∧
    (∀ (r : Registry α) (e : Nat),
        (Registry.update [fun s => s.kill_entity e] r)._components =
          r.purge_kills._components ∧
        e ∈ (Registry.update [fun s => s.kill_entity e] r)._to_kill_entities ∧
        ∀ s ∈ (Registry.update []
            (Registry.update [fun s => s.kill_entity e] r))._components,
          s.non_null e = false) := by
  refine ⟨fun _ _ => rfl, fun _ => rfl, ?_, ?_⟩
  · intro r e he
    refine ⟨Registry.purge_kills_killed he, ?_⟩
    intro s hs
    rw [sparse_array.non_null_eq, Registry.purge_kills_opIdx he s hs]
    rfl
  · intro r e
    refine ⟨rfl, ?_, ?_⟩
    · show e ∈ ((r.purge_kills).kill_entity e)._to_kill_entities
      simp only [Registry.kill_entity]
      exact hset_insert_mem_self _ e
    · intro s hs
      have hmem : e ∈ ((r.purge_kills).kill_entity e)._to_kill_entities := by
        simp only [Registry.kill_entity]
        exact hset_insert_mem_self _ e
      have hs2 : s ∈ (((r.purge_kills).kill_entity e).purge_kills)._components := hs
      have := Registry.purge_kills_opIdx hmem s hs2
      rw [sparse_array.non_null_eq, this]
      rfl

/-- Witness for C1: in a registry whose pending-kill set is `[3]`, the purge
phase moves 3 into the dead pool and clears its slot in every store. -/
theorem claim_C1_witness :
    3 ∈ ((Registry.empty Nat).kill_entity 3)._to_kill_entities ∧
    (3 ∈ ((Registry.empty Nat).kill_entity 3).purge_kills._killed_entities ∧
      ∀ s ∈ ((Registry.empty Nat).kill_entity 3).purge_kills._components,
        s.non_null 3 = false) :=
  ⟨by decide, (claim_C1_update_two_phase Nat).2.2.1 _ 3 (by decide)⟩

/-- C2: for an entity `e` whose store `t` holds a value, `kill_entity e`
leaves `get_component t e` unchanged (the lookup still succeeds before the
next `update()`), and after one `update()` call the lookup returns the
NotFound failure (`none`) — the component has been removed from every
store. -/
theorem claim_C2_deferred_kill_visibility (α : Type) (r : Registry α) (t e : Nat)
    (h : (r.get_component t e).isSome = true) :
    (r.kill_entity e).get_component t e = r.get_component t e ∧
    ((r.kill_entity e).get_component t e).isSome = true ∧
    (Registry.update [] (r.kill_entity e)).get_component t e = none := by
  refine ⟨rfl, h, ?_⟩
  have hmem : e ∈ (r.kill_entity e)._to_kill_entities := hset_insert_mem_self _ e
  have hall := Registry.purge_kills_opIdx hmem
  show ((r.kill_entity e).purge_kills.get_component t e) = none
  unfold Registry.get_component
  exact Registry.getD_comps_opIdx hall t

/-- Witness for C2: entity 0 holding value 7 of component type 0. -/
theorem claim_C2_witness :
    ((((Registry.empty Nat).register_component).insert_component 0 0 7).get_component
        0 0).isSome = true ∧
    (Registry.update []
        ((((Registry.empty Nat).register_component).insert_component 0 0 7).kill_entity
          0)).get_component 0 0 = none :=
  ⟨by decide,
    (claim_C2_deferred_kill_visibility Nat
      ((((Registry.empty Nat)).register_component).insert_component 0 0 7) 0 0
      (by decide)).2.2⟩

/-- C3: the zipper yields, in ascending id order, exactly the ids in
`[0, entities_count)` at which every queried store is occupied (the
generic filter characterisation), and in the concrete `{A}`, `{A,B}`, `{B}`
registry `view<A,B>()` yields exactly the single entity 1 that holds
both. -/
theorem claim_C3_view_and_semantics :
    (∀ (α : Type) (qs : List (sparse_array α)) (endI : Nat),
        zip_ids qs endI = (List.range endI).filter (fun j => all_set qs j)) ∧
    c3_reg.view [0, 1] = [1] := by
  refine ⟨fun _ qs endI => zip_ids_eq_filter qs endI, ?_⟩
  unfold Registry.view
  rw [zip_ids_eq_filter]
  decide

/-- C4: if the top state's `update()` body performs `replace<Other>()`, then
`Other.init()` is not called during that manager `update()` call, and in the
next `update()` call the original state is destroyed (popped) strictly
before `Other.init()` runs. -/
theorem claim_C4_replace_deferred (m : StateManager) (s : StObj) (rest : List StObj)
    (t : Nat) (a : Action)
    (hs : m.m_states = s :: rest) (ha : s.act = Action.replaceWith t a)
    (hp : m.m_pop_count = 0) (hq : m.m_pending_state = none) :
    Ev.init t ∉ m.update.1 ∧
    ∃ l₁ l₂, m.update.2.2.update.1 = Ev.destroyed s.tag :: (l₁ ++ Ev.init t :: l₂) := by
  obtain ⟨st, pend, pc⟩ := m
  simp only at hs hp hq
  subst hs hp hq
  constructor
  · simp [StateManager.update, StateManager.pop_states_internal, StateManager.applyAction,
      StateManager.replace, StateManager.stop, StateManager.push, ha]
  · refine ⟨rest.map (fun o => Ev.destroyed o.tag),
      Ev.updated t ::
        (StateManager.applyAction a ⟨[⟨t, a⟩], none, rest.length + 1⟩).1, ?_⟩
    simp [StateManager.update, StateManager.pop_states_internal, StateManager.applyAction,
      StateManager.replace, StateManager.stop, StateManager.push, ha,
      List.take_succ_cons, List.take_length, List.drop_succ_cons, List.drop_length]

/-- Witness for C4: a single live state (tag 0) whose `update()` replaces it
with a state of tag 1. -/
theorem claim_C4_witness :
    Ev.init 1 ∉
      (StateManager.mk [⟨0, Action.replaceWith 1 Action.nop⟩] none 0).update.1 ∧
    ∃ l₁ l₂,
      (StateManager.mk [⟨0, Action.replaceWith 1 Action.nop⟩] none
            0).update.2.2.update.1 =
        Ev.destroyed 0 :: (l₁ ++ Ev.init 1 :: l₂) :=
  claim_C4_replace_deferred
    (StateManager.mk [⟨0, Action.replaceWith 1 Action.nop⟩] none 0)
    ⟨0, Action.replaceWith 1 Action.nop⟩ [] 1 Action.nop rfl rfl rfl rfl

/-- C5 counterexample: `spawn_entity` does *not* return the smallest id of
the dead pool.  After spawning ids 0 and 1, killing 1 then 0 and running
`update()`, the dead pool contains 0 but its iteration order lists 1 first
(`*_killed_entities.begin()` of the unordered set — the source itself calls
the drawn value `random_id`), so the next spawn returns 1 even though the
smaller id 0 is in the pool. -/
theorem claim_C5_counterexample :
    (c5_reg.spawn_entity).1 = 1 ∧ 0 ∈ c5_reg._killed_entities ∧ (0 : Nat) < 1 := by
  decide

/-- C5 amended: when the dead pool is empty, `spawn_entity` returns the
prior high-water mark and bumps it; when the pool is non-empty it returns
*some* element of the pool (the first in the unordered set's iteration
order, not necessarily the smallest) and removes it from the pool.  The
claim's concrete scenario does hold: spawn A (id 0), kill A, spawn B
(id 1), `update()`, and the next spawn returns the recycled id 0, not 2. -/
theorem claim_C5_spawn_amended (α : Type) :
    (∀ r : Registry α, r._killed_entities = [] →
        r.spawn_entity =
          (r._entities_count, { r with _entities_count := r._entities_count + 1 })) ∧
    (∀ r : Registry α, r._killed_entities ≠ [] →
        (r.spawn_entity).1 ∈ r._killed_entities ∧
        (r.spawn_entity).1 ∉ ((r.spawn_entity).2)._killed_entities) ∧
    (c5_spec_reg.spawn_entity).1 = 0 := by
  refine ⟨?_, ?_, by decide⟩
  · intro r h
    simp [Registry.spawn_entity, h]
  · intro r h
    rcases hkl : r._killed_entities with _ | ⟨x, xs⟩
    · exact absurd hkl h
    · constructor
      · simp [Registry.spawn_entity, hkl]
      · simp only [Registry.spawn_entity, hkl]
        exact hset_erase_not_mem _ x

/-- Witness for C5 (amended): the empty registry allocates id 0 and bumps
the high-water mark; `c5_reg`'s non-empty pool yields a pool element that is
removed from the pool. -/
theorem claim_C5_witness :
    ((Registry.empty Nat)._killed_entities = [] ∧
      (Registry.empty Nat).spawn_entity =
        (0, { Registry.empty Nat with _entities_count := 1 })) ∧
    (c5_reg._killed_entities ≠ [] ∧
      (c5_reg.spawn_entity).1 ∈ c5_reg._killed_entities ∧
      (c5_reg.spawn_entity).1 ∉ ((c5_reg.spawn_entity).2)._killed_entities) :=
  ⟨⟨rfl, (claim_C5_spawn_amended Nat).1 (Registry.empty Nat) rfl⟩,
    ⟨by decide, (claim_C5_spawn_amended Nat).2.1 c5_reg (by decide)⟩⟩

/-- C6: `entities_count()` computes the issued high-water mark minus the
dead ids minus the pending-kill ids (in `size_t` arithmetic; stated here
under the reachable-state side conditions that the counter is a valid
`size_t` and the two kill sets do not outnumber the issued ids), and in the
mass-kill scenario — 100 entities holding `{A,B}`, one `update()` with a
system that kills every entity matched by `view<A,B>()` —
`entities_count()` is 0 afterwards. -/
theorem claim_C6_entities_count (α : Type) :
    (∀ r : Registry α, r._entities_count < 2 ^ 64 →
        r._killed_entities.length + r._to_kill_entities.length ≤ r._entities_count →
        r.entities_count =
          r._entities_count -
            (r._killed_entities.length + r._to_kill_entities.length)) ∧
    (Registry.update [c6_kill_system] c6_reg).entities_count = 0 := by
  constructor
  case right =>
    have hv : (c6_reg.purge_kills).view [0, 1] = List.range 100 := by
      unfold Registry.view
      rw [zip_ids_eq_filter]
      decide
    show (c6_kill_system (c6_reg.purge_kills)).entities_count = 0
    unfold c6_kill_system
    rw [hv]
    decide
  case left =>
  intro r h1 h2
  unfold Registry.entities_count
  have hrw : r._entities_count + 2 ^ 64 -
      (r._killed_entities.length + r._to_kill_entities.length) =
      (r._entities_count -
        (r._killed_entities.length + r._to_kill_entities.length)) + 2 ^ 64 := by
    omega
  rw [hrw, Nat.add_mod_right]
  exact Nat.mod_eq_of_lt (by omega)

/-- Witness for C6: the three-entity registry of C3 has high-water mark 3,
no dead and no pending ids, and `entities_count()` 3. -/
theorem claim_C6_witness :
    (c3_reg._entities_count < 2 ^ 64 ∧
      c3_reg._killed_entities.length + c3_reg._to_kill_entities.length ≤
        c3_reg._entities_count) ∧
    c3_reg.entities_count =
      c3_reg._entities_count -
        (c3_reg._killed_entities.length + c3_reg._to_kill_entities.length) :=
  ⟨⟨by decide, by decide⟩,
    (claim_C6_entities_count Nat).1 c3_reg (by decide) (by decide)⟩

/-- C7 (the code, at the claim's failing input): on a freshly constructed
registry — no id was ever issued — `is_entity_valid 5` returns `true`,
because the guard compares against `_last_entity_id`, which is initialized
to `(size_t)-1` and never updated by `spawn_entity`, so the "issued range"
test of the claim (and of the code's own comment) is vacuous and validity
degenerates to "not in the dead pool". -/
theorem claim_C7_is_valid_range_bug :
    (Registry.empty Nat)._entities_count = 0 ∧
    (Registry.empty Nat).is_entity_valid 5 = true := by
  decide

/-- C8 (the code, at the claim's failing input): two live states, one
`pop()`, two `update()` calls.  `pop()` removes nothing and sets the pending
pop-count to 1 (saturated); the first `update()` pops exactly one state —
but `_pop_states_internal` never resets `m_pop_count`, so the second
`update()` pops the remaining state too: after two updates the stack is
empty, where the claim (one pop-count, then spent) requires exactly one
state popped. -/
theorem claim_C8_pop_count_not_spent :
    c8_mgr.m_states.length = 2 ∧
    (c8_mgr.pop).m_states.length = 2 ∧
    (c8_mgr.pop).m_pop_count = 1 ∧
    ((c8_mgr.pop).update.2.2).m_states.length = 1 ∧
    (((c8_mgr.pop).update.2.2).update.2.2).m_states.length = 0 ∧
    Ev.destroyed 1 ∈ (c8_mgr.pop).update.1 ∧
    Ev.destroyed 0 ∈ ((c8_mgr.pop).update.2.2).update.1 := by
  decide

/-- C9: sparse-store operations are total at the boundary: `non_null` on an
out-of-capacity index is `false` (not an error); `erase` on an
out-of-range or already-empty slot leaves the store unchanged; `insert`
grows the backing sequence as needed and always leaves the slot occupied
with the given value. -/
theorem claim_C9_sparse_boundary (α : Type) :
    (∀ (a : sparse_array α) (pos : Nat), a.data.length ≤ pos →
        a.non_null pos = false) ∧
    (∀ (a : sparse_array α) (pos : Nat), a.data.length ≤ pos → a.erase pos = a) ∧
    (∀ (a : sparse_array α) (pos : Nat), a.opIdx pos = none → a.erase pos = a) ∧
    (∀ (a : sparse_array α) (pos : Nat) (c : α),
        (a.insert pos c).opIdx pos = some c ∧
        (a.insert pos c).data.length = max (pos + 1) a.data.length) := by
  refine ⟨?_, ?_, ?_, ?_⟩
  · intro a pos h; unfold sparse_array.non_null; simp [h]
  · intro a pos h; unfold sparse_array.erase; simp [h]
  · intro a pos h
    unfold sparse_array.erase
    split
    · rfl
    next hlt =>
      have hp : pos < a.data.length := by omega
      have hget : a.data.get? pos = some none := by
        rw [List.get?_eq_getElem?, List.getElem?_eq_getElem hp]
        unfold sparse_array.opIdx at h
        rw [List.getD_eq_getElem a.data none hp] at h
        rw [h]
      rw [list_set_of_get? a.data pos none hget]
  · intro a pos c
    exact ⟨sparse_array.opIdx_insert_self a pos c, sparse_array.length_insert a pos c⟩

/-- Witness for C9: the default 20-slot store — membership test and erase at
index 25 (out of range), erase at the empty slot 3, insert at 25. -/
theorem claim_C9_witness :
    ((sparse_array.default Nat).data.length ≤ 25 ∧
      (sparse_array.default Nat).non_null 25 = false) ∧
    (sparse_array.default Nat).erase 25 = sparse_array.default Nat ∧
    ((sparse_array.default Nat).opIdx 3 = none ∧
      (sparse_array.default Nat).erase 3 = sparse_array.default Nat) ∧
    ((sparse_array.default Nat).insert 25 9).opIdx 25 = some 9 :=
  ⟨⟨by decide, (claim_C9_sparse_boundary Nat).1 _ 25 (by decide)⟩,
    (claim_C9_sparse_boundary Nat).2.1 _ 25 (by decide),
    ⟨by decide, (claim_C9_sparse_boundary Nat).2.2.1 _ 3 (by decide)⟩,
    ((claim_C9_sparse_boundary Nat).2.2.2 _ 25 9).1⟩

/-- C10: the zipper-iterator invariant — `begin()` either equals the end
index or rests on an index where all queried stores are occupied; the same
holds after every increment from a position below the end; consequently
every dereferenced index of a begin/end iteration reads only occupied
slots, so the `.value()` calls in `operator*` never hit an empty
optional. -/
theorem claim_C10_deref_safety :
    (∀ (α : Type) (qs : List (sparse_array α)) (endI : Nat),
        begin_idx qs endI = endI ∨ all_set qs (begin_idx qs endI) = true) ∧
    (∀ (α : Type) (qs : List (sparse_array α)) (endI i : Nat), i < endI →
        incr_all qs endI i = endI ∨ all_set qs (incr_all qs endI i) = true) ∧
    (∀ (α : Type) (qs : List (sparse_array α)) (endI j : Nat),
        j ∈ zip_ids qs endI → ∀ s ∈ qs, (s.opIdx j).isSome = true) := by
  refine ⟨?_, ?_, ?_⟩
  · intro α qs endI
    rw [begin_idx_eq_scan]
    have hle := scan_set_le qs endI 0 (Nat.zero_le endI)
    rcases Nat.eq_or_lt_of_le hle with heq | hlt
    · exact Or.inl heq
    · exact Or.inr (scan_set_all_set qs endI 0 hlt)
  · intro α qs endI i hi
    unfold incr_all
    have hle := scan_set_le qs endI (i + 1) (by omega)
    rcases Nat.eq_or_lt_of_le hle with heq | hlt
    · exact Or.inl heq
    · exact Or.inr (scan_set_all_set qs endI (i + 1) hlt)
  · intro α qs endI j hj s hsq
    rw [zip_ids_eq_filter] at hj
    have hall := (List.mem_filter.mp hj).2
    unfold all_set at hall
    rw [List.all_eq_true] at hall
    have := hall s hsq
    rwa [sparse_array.non_null_eq] at this

/-- Witness for C10: the one queried store `[some 5, none, some 7]` with end
index 3; incrementing from 0 rests on index 2 where the store is occupied,
and the yielded index 2 dereferences an occupied slot. -/
theorem claim_C10_witness :
    ((0 : Nat) < 3 ∧
      (incr_all [(⟨[some 5, none, some 7]⟩ : sparse_array Nat)] 3 0 = 3 ∨
        all_set [(⟨[some 5, none, some 7]⟩ : sparse_array Nat)]
          (incr_all [(⟨[some 5, none, some 7]⟩ : sparse_array Nat)] 3 0) = true)) ∧
    (2 ∈ zip_ids [(⟨[some 5, none, some 7]⟩ : sparse_array Nat)] 3 ∧
      ∀ s ∈ [(⟨[some 5, none, some 7]⟩ : sparse_array Nat)],
        (s.opIdx 2).isSome = true) :=
  ⟨⟨by decide,
      claim_C10_deref_safety.2.1 Nat [(⟨[some 5, none, some 7]⟩ : sparse_array Nat)]
        3 0 (by decide)⟩,
    ⟨by rw [zip_ids_eq_filter]; decide,
      claim_C10_deref_safety.2.2 Nat [(⟨[some 5, none, some 7]⟩ : sparse_array Nat)]
        3 2 (by rw [zip_ids_eq_filter]; decide)⟩⟩

end Silva
